import Mathlib

/-!
Verification of the FluentFuse matchmaking and session core, as a shallow
embedding of `src/app/db/models/session.py` and `src/app/db/models/match.py`.

Modelling conventions:
- `datetime.utcnow()` is passed explicitly as a `now : Int` parameter
  (seconds since an arbitrary epoch); `timedelta.total_seconds()` followed
  by `int(...)` is exact integer subtraction in this model.
- Python `float` quantities (ratings, match scores) are modelled as `ℚ`,
  i.e. exact arithmetic.
- Nullable columns are `Option`; methods that raise `ValueError` return
  `Except String`.
- User ids are `Nat`.
-/

/-- States of a session, from `SessionState` in session.py. -/
inductive SessionState where
  | ACTIVE
  | PAUSED
  | ENDED
  | DROPPED
  | EXPIRED
deriving DecidableEq, Repr

/-- Turn-language values, from `TurnLanguage` in session.py. -/
inductive TurnLanguage where
  | USER1_NATIVE
  | USER2_NATIVE
  | MIXED
deriving DecidableEq, Repr

/-- Reasons for ending a session, from `SessionEndReason` in session.py. -/
inductive SessionEndReason where
  | COMPLETED
  | USER_LEFT
  | INACTIVITY
  | TECHNICAL_ERROR
  | MODERATION
  | MAXIMUM_DURATION
deriving DecidableEq, Repr

/-- The mutable fields of the `Session` model that its lifecycle methods
read or write (session.py). -/
structure Session where
  user1_id : Nat
  user2_id : Nat
  state : SessionState
  current_turn_language : TurnLanguage
  turn_switched_at : Option Int
  turn_switch_count : Nat
  started_at : Int
  ended_at : Option Int
  last_activity_at : Int
  paused_at : Option Int
  active_duration_seconds : Int
  paused_duration_seconds : Int
  user1_last_seen : Option Int
  user2_last_seen : Option Int
  user1_typing : Bool
  user2_typing : Bool
  end_reason : Option SessionEndReason
  ended_by_user_id : Option Nat
deriving DecidableEq, Repr

namespace Session

/-- Embeds `Session.is_ended` (session.py line 131). -/
def is_ended (s : Session) : Bool :=
  s.state = SessionState.ENDED ∨ s.state = SessionState.DROPPED ∨
    s.state = SessionState.EXPIRED

/-- Embeds `Session.update_activity` (session.py line 182). -/
def update_activity (now : Int) (user_id : Option Nat) (s : Session) : Session :=
  let s := { s with last_activity_at := now }
  match user_id with
  | none => s
  | some u =>
      if u = s.user1_id then { s with user1_last_seen := some now }
      else if u = s.user2_id then { s with user2_last_seen := some now }
      else s

/-- Embeds `Session.switch_turn_language` (session.py line 212); the Python
method returns the new turn language, which here is read off the result. -/
def switch_turn_language (now : Int) (s : Session) : Session :=
  let newLang :=
    match s.current_turn_language with
    | TurnLanguage.USER1_NATIVE => TurnLanguage.USER2_NATIVE
    | TurnLanguage.USER2_NATIVE => TurnLanguage.USER1_NATIVE
    | TurnLanguage.MIXED => TurnLanguage.USER1_NATIVE
  { s with
    current_turn_language := newLang
    turn_switched_at := some now
    turn_switch_count := s.turn_switch_count + 1 }

/-- Embeds `Session.pause_session` (session.py line 238); the `reason`
argument is accepted and ignored, exactly as in the Python body. -/
def pause_session (now : Int) (_reason : String) (s : Session) : Session :=
  if s.state = SessionState.ACTIVE then
    let s :=
      if s.paused_at = none then
        { s with active_duration_seconds :=
            s.active_duration_seconds + (now - s.started_at) }
      else s
    { s with state := SessionState.PAUSED, paused_at := some now }
  else s

/-- Embeds `Session.resume_session` (session.py line 251). -/
def resume_session (now : Int) (s : Session) : Session :=
  if s.state = SessionState.PAUSED then
    match s.paused_at with
    | some p =>
        let s := { s with paused_duration_seconds :=
            s.paused_duration_seconds + (now - p) }
        let s := { s with state := SessionState.ACTIVE, paused_at := none }
        update_activity now none s
    | none => s
  else s

/-- Embeds `Session.end_session` (session.py line 264). -/
def end_session (now : Int) (reason : SessionEndReason)
    (ended_by_user_id : Option Nat) (s : Session) : Session :=
  if s.is_ended then s
  else
    let s :=
      if s.state = SessionState.ACTIVE then
        { s with active_duration_seconds :=
            s.active_duration_seconds + (now - (s.paused_at.getD s.started_at)) }
      else
        match s.state, s.paused_at with
        | SessionState.PAUSED, some p =>
            { s with paused_duration_seconds :=
                s.paused_duration_seconds + (now - p) }
        | _, _ => s
    let newState :=
      if reason = SessionEndReason.COMPLETED then SessionState.ENDED
      else if reason = SessionEndReason.MAXIMUM_DURATION then SessionState.EXPIRED
      else SessionState.DROPPED
    { s with
      state := newState
      ended_at := some now
      end_reason := some reason
      ended_by_user_id := ended_by_user_id
      user1_typing := false
      user2_typing := false }

end Session

/-- Candidate statuses, from `MatchCandidateStatus` in match.py. -/
inductive MatchCandidateStatus where
  | IDLE
  | QUEUED
  | PROPOSED
  | MATCHED
  | COOLDOWN
deriving DecidableEq, Repr

/-- Match states, from `MatchState` in match.py. -/
inductive MatchState where
  | PROPOSED
  | ACCEPTED
  | REJECTED
  | EXPIRED
  | SESSION_CREATED
deriving DecidableEq, Repr

/-- The fields of the `MatchCandidate` model that its rating, strike and
cooldown methods read or write (match.py). -/
structure MatchCandidate where
  status : MatchCandidateStatus
  average_rating : ℚ
  total_ratings : Nat
  strike_count : Nat
  cooldown_until : Option Int
  cooldown_reason : Option String
deriving DecidableEq, Repr

namespace MatchCandidate

/-- Embeds `MatchCandidate.add_cooldown` (match.py line 118); the duration
is given in minutes and times are in seconds. -/
def add_cooldown (now : Int) (duration_minutes : Int) (reason : String)
    (c : MatchCandidate) : MatchCandidate :=
  { c with
    status := MatchCandidateStatus.COOLDOWN
    cooldown_until := some (now + duration_minutes * 60)
    cooldown_reason := some reason }

/-- Embeds `MatchCandidate.add_rating` (match.py line 124), over exact
rational arithmetic. -/
def add_rating (rating : ℚ) (c : MatchCandidate) : MatchCandidate :=
  let total_score := c.average_rating * c.total_ratings
  let c := { c with total_ratings := c.total_ratings + 1 }
  { c with average_rating := (total_score + rating) / c.total_ratings }

/-- Embeds `MatchCandidate.add_strike` (match.py line 130). -/
def add_strike (now : Int) (c : MatchCandidate) : MatchCandidate :=
  let c := { c with strike_count := c.strike_count + 1 }
  if c.strike_count ≥ 3 then add_cooldown now (60 * 24) "excessive_strikes" c
  else c

end MatchCandidate

/-- The fields of the `Match` model that its response, expiry and scoring
methods read or write (match.py). -/
structure MatchRec where
  user1_id : Nat
  user2_id : Nat
  state : MatchState
  expires_at : Int
  user1_response : Option String
  user2_response : Option String
  user1_responded_at : Option Int
  user2_responded_at : Option Int
  session_id : Option Nat
  rejection_reason : Option String
  accepted_at : Option Int
  completed_at : Option Int
deriving DecidableEq, Repr

namespace MatchRec

/-- Embeds the `Match.is_expired` property (match.py line 222). -/
def is_expired (now : Int) (m : MatchRec) : Bool :=
  now > m.expires_at

/-- Embeds the `Match.is_fully_responded` property (match.py line 232). -/
def is_fully_responded (m : MatchRec) : Bool :=
  m.user1_response.isSome ∧ m.user2_response.isSome

/-- Embeds the `Match.is_accepted_by_both` property (match.py line 237). -/
def is_accepted_by_both (m : MatchRec) : Bool :=
  m.user1_response = some "accepted" ∧ m.user2_response = some "accepted"

/-- Embeds `Match.get_user_response` (match.py line 251). -/
def get_user_response (user_id : Nat) (m : MatchRec) : Option String :=
  if user_id = m.user1_id then m.user1_response
  else if user_id = m.user2_id then m.user2_response
  else none

/-- Embeds `Match._update_state_after_response` (match.py line 275). -/
def update_state_after_response (now : Int) (m : MatchRec) : MatchRec :=
  if ¬ m.is_fully_responded then m
  else if m.is_accepted_by_both then
    { m with state := MatchState.ACCEPTED, accepted_at := some now }
  else
    let m := { m with state := MatchState.REJECTED, completed_at := some now }
    if m.user1_response = some "rejected" ∧ m.user2_response = some "rejected" then
      { m with rejection_reason := some "both_rejected" }
    else if m.user1_response = some "rejected" then
      { m with rejection_reason := some "user1_rejected" }
    else
      { m with rejection_reason := some "user2_rejected" }

/-- Embeds `Match.set_user_response` (match.py line 259); the `ValueError`
raised for a non-participant becomes `Except.error`. -/
def set_user_response (now : Int) (user_id : Nat) (response : String)
    (m : MatchRec) : Except String MatchRec :=
  if user_id = m.user1_id then
    Except.ok (update_state_after_response now
      { m with user1_response := some response, user1_responded_at := some now })
  else if user_id = m.user2_id then
    Except.ok (update_state_after_response now
      { m with user2_response := some response, user2_responded_at := some now })
  else
    Except.error "User ID not found in this match"

/-- Embeds `Match.expire_match` (match.py line 295). -/
def expire_match (now : Int) (m : MatchRec) : MatchRec :=
  let m := { m with state := MatchState.EXPIRED, completed_at := some now }
  let m :=
    if m.user1_response = none then { m with user1_response := some "timeout" }
    else m
  if m.user2_response = none then { m with user2_response := some "timeout" }
  else m

/-- The fixed factor weights of `Match.calculate_match_quality_score`
(match.py line 314), in iteration order. -/
def weights : List (String × ℚ) :=
  [("level_affinity", 25/100),
   ("native_target_match", 30/100),
   ("interest_overlap", 20/100),
   ("timezone_overlap", 15/100),
   ("quality_score", 10/100)]

/-- Embeds `Match.calculate_match_quality_score` (match.py line 311): a
factors dictionary is a partial map from factor name to value. -/
def calculate_match_quality_score (factors : String → Option ℚ) : ℚ :=
  let score := weights.foldl
    (fun acc fw =>
      match factors fw.1 with
      | some v => acc + v * fw.2
      | none => acc) 0
  min 1 (max 0 score)

end MatchRec

/-- A freshly proposed match between users 1 and 2 with no responses yet,
used to instantiate theorems at concrete inputs. -/
def exMatch : MatchRec :=
  { user1_id := 1
    user2_id := 2
    state := MatchState.PROPOSED
    expires_at := 90
    user1_response := none
    user2_response := none
    user1_responded_at := none
    user2_responded_at := none
    session_id := none
    rejection_reason := none
    accepted_at := none
    completed_at := none }

/-- An idle candidate with two strikes and no ratings yet, used to
instantiate theorems at concrete inputs. -/
def exCandidate : MatchCandidate :=
  { status := MatchCandidateStatus.IDLE
    average_rating := 5
    total_ratings := 0
    strike_count := 2
    cooldown_until := none
    cooldown_reason := none }

/-- An active session between users 1 and 2 started at time 0 in mixed
turn mode, used to instantiate theorems at concrete inputs. -/
def exSession : Session :=
  { user1_id := 1
    user2_id := 2
    state := SessionState.ACTIVE
    current_turn_language := TurnLanguage.MIXED
    turn_switched_at := none
    turn_switch_count := 0
    started_at := 0
    ended_at := none
    last_activity_at := 0
    paused_at := none
    active_duration_seconds := 0
    paused_duration_seconds := 0
    user1_last_seen := none
    user2_last_seen := none
    user1_typing := false
    user2_typing := false
    end_reason := none
    ended_by_user_id := none }

/-- Claim C1: on the coded session lifecycle, the scenario start at t=0,
pause at t=60, resume at t=120, end(Completed) at t=180 yields
active_duration_seconds = 240 (not the 120 of the claim): `pause_session`
accrues time since `started_at` rather than since the last resume, and
`end_session` falls back to `started_at` because `resume_session` cleared
`paused_at`, double-counting the first active minute and the paused minute.
Paused time is 60 as claimed. -/
theorem C1_pause_resume_end_double_counts :
    (Session.end_session 180 SessionEndReason.COMPLETED none
      (Session.resume_session 120
        (Session.pause_session 60 "disconnection" exSession))).active_duration_seconds
      = 240 ∧
    (Session.end_session 180 SessionEndReason.COMPLETED none
      (Session.resume_session 120
        (Session.pause_session 60 "disconnection" exSession))).paused_duration_seconds
      = 60 ∧
    (Session.end_session 180 SessionEndReason.COMPLETED none
      (Session.resume_session 120
        (Session.pause_session 60 "disconnection" exSession))).state
      = SessionState.ENDED := by
  decide

/-- Claim C5: the match quality score equals the clamped weighted sum of
the five fixed factors, with missing factors contributing 0, clamping
applied only to the final sum, and the result always in [0, 1]. -/
theorem C5_quality_score_clamped_weighted_sum (factors : String → Option ℚ) :
    MatchRec.calculate_match_quality_score factors =
      min 1 (max 0 (
        (25/100 : ℚ) * ((factors "level_affinity").getD 0) +
        (30/100 : ℚ) * ((factors "native_target_match").getD 0) +
        (20/100 : ℚ) * ((factors "interest_overlap").getD 0) +
        (15/100 : ℚ) * ((factors "timezone_overlap").getD 0) +
        (10/100 : ℚ) * ((factors "quality_score").getD 0))) ∧
    0 ≤ MatchRec.calculate_match_quality_score factors ∧
    MatchRec.calculate_match_quality_score factors ≤ 1 := by
  refine ⟨?_, ?_, ?_⟩
  · simp only [MatchRec.calculate_match_quality_score, MatchRec.weights,
      List.foldl_cons, List.foldl_nil]
    cases h1 : factors "level_affinity" <;>
      cases h2 : factors "native_target_match" <;>
        cases h3 : factors "interest_overlap" <;>
          cases h4 : factors "timezone_overlap" <;>
            cases h5 : factors "quality_score" <;>
              simp only [Option.getD] <;> ring_nf
  · exact le_min zero_le_one (le_max_left 0 _)
  · exact min_le_left 1 _

/-- Claim C6: add_strike increments strike_count by exactly 1, and when the
new count reaches 3 the candidate enters Cooldown with
cooldown_until = now + 24 hours and reason excessive_strikes. -/
theorem C6_third_strike_forces_cooldown (now : Int) (c : MatchCandidate) :
    (MatchCandidate.add_strike now c).strike_count = c.strike_count + 1 ∧
    (c.strike_count + 1 ≥ 3 →
      (MatchCandidate.add_strike now c).status = MatchCandidateStatus.COOLDOWN ∧
      (MatchCandidate.add_strike now c).cooldown_until = some (now + 24 * 60 * 60) ∧
      (MatchCandidate.add_strike now c).cooldown_reason = some "excessive_strikes") := by
  simp only [MatchCandidate.add_strike, MatchCandidate.add_cooldown]
  split_ifs with h <;> simp_all

/-- Claim C6 witness: a third strike on the idle two-strike candidate at
time 1000 yields Cooldown until 1000 + 86400 with reason
excessive_strikes. -/
theorem C6_third_strike_forces_cooldown_witness :
    exCandidate.strike_count + 1 ≥ 3 ∧
    ((MatchCandidate.add_strike 1000 exCandidate).strike_count =
        exCandidate.strike_count + 1 ∧
      (MatchCandidate.add_strike 1000 exCandidate).status =
        MatchCandidateStatus.COOLDOWN ∧
      (MatchCandidate.add_strike 1000 exCandidate).cooldown_until =
        some (1000 + 24 * 60 * 60) ∧
      (MatchCandidate.add_strike 1000 exCandidate).cooldown_reason =
        some "excessive_strikes") :=
  ⟨by decide,
    ⟨(C6_third_strike_forces_cooldown 1000 exCandidate).1,
      (C6_third_strike_forces_cooldown 1000 exCandidate).2 (by decide)⟩⟩

/-- Claim C7: switch_turn_language maps User1Native to User2Native,
User2Native to User1Native and Mixed to User1Native, stamps
turn_switched_at with the current time, increments turn_switch_count by 1,
and its result is never Mixed. -/
theorem C7_turn_switch_cycle (now : Int) (s : Session) :
    (Session.switch_turn_language now s).turn_switched_at = some now ∧
    (Session.switch_turn_language now s).turn_switch_count =
      s.turn_switch_count + 1 ∧
    (s.current_turn_language = TurnLanguage.USER1_NATIVE →
      (Session.switch_turn_language now s).current_turn_language =
        TurnLanguage.USER2_NATIVE) ∧
    (s.current_turn_language = TurnLanguage.USER2_NATIVE →
      (Session.switch_turn_language now s).current_turn_language =
        TurnLanguage.USER1_NATIVE) ∧
    (s.current_turn_language = TurnLanguage.MIXED →
      (Session.switch_turn_language now s).current_turn_language =
        TurnLanguage.USER1_NATIVE) ∧
    (Session.switch_turn_language now s).current_turn_language ≠
      TurnLanguage.MIXED := by
  unfold Session.switch_turn_language
  cases h : s.current_turn_language <;> simp [h]

/-- Claim C7 witness: switching the mixed-mode session at time 5 collapses
the turn language to User1Native, and the result is not Mixed. -/
theorem C7_turn_switch_cycle_witness :
    exSession.current_turn_language = TurnLanguage.MIXED ∧
    (Session.switch_turn_language 5 exSession).current_turn_language =
      TurnLanguage.USER1_NATIVE ∧
    (Session.switch_turn_language 5 exSession).current_turn_language ≠
      TurnLanguage.MIXED :=
  ⟨by decide,
    (C7_turn_switch_cycle 5 exSession).2.2.2.2.1 (by decide),
    (C7_turn_switch_cycle 5 exSession).2.2.2.2.2⟩

/-- Claim C8: expire_match never overwrites a recorded response: any
response already present is preserved, and only null responses are set to
timeout. -/
theorem C8_expire_preserves_responses (now : Int) (m : MatchRec) :
    (∀ r, m.user1_response = some r →
      (MatchRec.expire_match now m).user1_response = some r) ∧
    (∀ r, m.user2_response = some r →
      (MatchRec.expire_match now m).user2_response = some r) ∧
    (m.user1_response = none →
      (MatchRec.expire_match now m).user1_response = some "timeout") ∧
    (m.user2_response = none →
      (MatchRec.expire_match now m).user2_response = some "timeout") := by
  unfold MatchRec.expire_match
  cases h1 : m.user1_response <;> cases h2 : m.user2_response <;>
    simp [h1, h2]

/-- Claim C8 witness: expiring a match where user1 already accepted keeps
the accepted response and fills only the missing user2 response with
timeout. -/
theorem C8_expire_preserves_responses_witness :
    ({ exMatch with user1_response := some "accepted" } :
        MatchRec).user1_response = some "accepted" ∧
    (MatchRec.expire_match 100
        { exMatch with user1_response := some "accepted" }).user1_response =
      some "accepted" ∧
    (MatchRec.expire_match 100
        { exMatch with user1_response := some "accepted" }).user2_response =
      some "timeout" :=
  ⟨by decide,
    (C8_expire_preserves_responses 100
        { exMatch with user1_response := some "accepted" }).1 "accepted" rfl,
    (C8_expire_preserves_responses 100
        { exMatch with user1_response := some "accepted" }).2.2.2 rfl⟩

/-- Claim C9: add_rating is the exact running-mean update: the count goes
up by one and the new average is (old average times old count plus the new
rating) over the new count; from a zero count the new average is exactly
the rating, the default 5.0 contributing nothing. -/
theorem C9_running_mean (r : ℚ) (c : MatchCandidate) :
    (MatchCandidate.add_rating r c).total_ratings = c.total_ratings + 1 ∧
    (MatchCandidate.add_rating r c).average_rating =
      (c.average_rating * c.total_ratings + r) / (c.total_ratings + 1) ∧
    (c.total_ratings = 0 → (MatchCandidate.add_rating r c).average_rating = r) := by
  refine ⟨rfl, ?_, ?_⟩
  · unfold MatchCandidate.add_rating
    push_cast
    ring_nf
  · intro h
    unfold MatchCandidate.add_rating
    simp [h]

/-- Claim C9 witness: rating the zero-count candidate with 3 yields an
average of exactly 3 despite the default initial average of 5. -/
theorem C9_running_mean_witness :
    exCandidate.total_ratings = 0 ∧
    (MatchCandidate.add_rating 3 exCandidate).average_rating = 3 :=
  ⟨rfl, (C9_running_mean 3 exCandidate).2.2 rfl⟩

/-- Claim C10: pause_session on a non-Active session and resume_session on
a session that is not Paused or has no paused_at are total silent no-ops:
no error is possible and the session record is returned unchanged in every
field. -/
theorem C10_pause_resume_noop (now : Int) (reason : String) (s : Session) :
    (s.state ≠ SessionState.ACTIVE →
      Session.pause_session now reason s = s) ∧
    ((s.state ≠ SessionState.PAUSED ∨ s.paused_at = none) →
      Session.resume_session now s = s) := by
  constructor
  · intro h
    unfold Session.pause_session
    simp [h]
  · intro h
    unfold Session.resume_session
    rcases h with h | h
    · simp [h]
    · split
      · simp [h]
      · rfl

/-- Claim C10 witness: on an already ended session, both pause and resume
leave the record untouched. -/
theorem C10_pause_resume_noop_witness :
    ({ exSession with state := SessionState.ENDED } : Session).state ≠
      SessionState.ACTIVE ∧
    Session.pause_session 9 "disconnection"
        { exSession with state := SessionState.ENDED } =
      { exSession with state := SessionState.ENDED } ∧
    Session.resume_session 9 { exSession with state := SessionState.ENDED } =
      { exSession with state := SessionState.ENDED } :=
  ⟨by decide,
    (C10_pause_resume_noop 9 "disconnection"
        { exSession with state := SessionState.ENDED }).1 (by decide),
    (C10_pause_resume_noop 9 "disconnection"
        { exSession with state := SessionState.ENDED }).2
      (Or.inl (by decide))⟩

/-- Helper: binding an ok value runs the continuation. -/
theorem except_bind_ok {ε α β : Type} (a : α) (f : α → Except ε β) :
    (Except.ok a : Except ε α).bind f = f a := rfl

/-- Helper: mapping over an ok value applies the function. -/
theorem except_map_ok {ε α β : Type} (a : α) (f : α → β) :
    (Except.ok a : Except ε α).map f = Except.ok (f a) := rfl

/-- Helper: the response resolution step never changes the participant ids,
the responses or the response timestamps of a match. -/
theorem usar_preserves (now : Int) (m : MatchRec) :
    (MatchRec.update_state_after_response now m).user1_id = m.user1_id ∧
    (MatchRec.update_state_after_response now m).user2_id = m.user2_id ∧
    (MatchRec.update_state_after_response now m).user1_response =
      m.user1_response ∧
    (MatchRec.update_state_after_response now m).user2_response =
      m.user2_response ∧
    (MatchRec.update_state_after_response now m).user1_responded_at =
      m.user1_responded_at ∧
    (MatchRec.update_state_after_response now m).user2_responded_at =
      m.user2_responded_at := by
  unfold MatchRec.update_state_after_response
  split_ifs <;> simp
  split_ifs <;> simp

/-- Helper: the response resolution step is the identity while either
response is still missing. -/
theorem usar_noop_of_missing (now : Int) (m : MatchRec)
    (h : m.user1_response = none ∨ m.user2_response = none) :
    MatchRec.update_state_after_response now m = m := by
  unfold MatchRec.update_state_after_response MatchRec.is_fully_responded
  rcases h with h | h <;> simp [h]

/-- Helper: once both responses are present, the resolution step fixes the
state, the rejection reason and the outcome timestamp as a function of the
two response strings. -/
theorem usar_resolves (now : Int) (m : MatchRec) (r1 r2 : String)
    (h1 : m.user1_response = some r1) (h2 : m.user2_response = some r2) :
    (MatchRec.update_state_after_response now m).state =
      (if r1 = "accepted" ∧ r2 = "accepted" then MatchState.ACCEPTED
       else MatchState.REJECTED) ∧
    (MatchRec.update_state_after_response now m).rejection_reason =
      (if r1 = "accepted" ∧ r2 = "accepted" then m.rejection_reason
       else some (if r1 = "rejected" ∧ r2 = "rejected" then "both_rejected"
         else if r1 = "rejected" then "user1_rejected"
         else "user2_rejected")) ∧
    ((r1 = "accepted" ∧ r2 = "accepted") →
      (MatchRec.update_state_after_response now m).accepted_at = some now) ∧
    (¬ (r1 = "accepted" ∧ r2 = "accepted") →
      (MatchRec.update_state_after_response now m).completed_at = some now) := by
  unfold MatchRec.update_state_after_response MatchRec.is_fully_responded
    MatchRec.is_accepted_by_both
  simp only [h1, h2, Option.isSome_some, Option.some.injEq]
  split_ifs <;> simp_all

/-- Claim C2 counterexample: on a match already in the terminal Rejected
state, set_user_response does not fail with a state conflict and does not
leave the match unchanged: it succeeds and records the response and its
timestamp. -/
theorem C2_counterexample_terminal_match_mutated :
    ({ exMatch with state := MatchState.REJECTED } : MatchRec).state =
      MatchState.REJECTED ∧
    ({ exMatch with state := MatchState.REJECTED } :
        MatchRec).user1_responded_at = none ∧
    (MatchRec.set_user_response 100 1 "accepted"
        { exMatch with state := MatchState.REJECTED }).toOption.map
      MatchRec.user1_response = some (some "accepted") ∧
    (MatchRec.set_user_response 100 1 "accepted"
        { exMatch with state := MatchState.REJECTED }).toOption.map
      MatchRec.user1_responded_at = some (some 100) := by
  decide

/-- Claim C2 (amended): set_user_response fails with the not-a-participant
error when the user is neither user1 nor user2 of the match; otherwise it
records the response together with a response timestamp regardless of the
match state — there is no terminal-state (StateConflict) check in the
code. -/
theorem C2_response_recorded_any_state (now : Int) (u : Nat) (r : String)
    (m : MatchRec) :
    (¬ (u = m.user1_id ∨ u = m.user2_id) →
      MatchRec.set_user_response now u r m =
        Except.error "User ID not found in this match") ∧
    ((u = m.user1_id ∨ u = m.user2_id) →
      ∃ m', MatchRec.set_user_response now u r m = Except.ok m' ∧
        m'.get_user_response u = some r ∧
        (u = m.user1_id → m'.user1_responded_at = some now) ∧
        (u ≠ m.user1_id → m'.user2_responded_at = some now)) := by
  constructor
  · intro h
    obtain ⟨hu1, hu2⟩ := not_or.mp h
    simp [MatchRec.set_user_response, hu1, hu2]
  · intro h
    by_cases hu1 : u = m.user1_id
    · subst hu1
      refine ⟨MatchRec.update_state_after_response now
          { m with user1_response := some r, user1_responded_at := some now },
        by simp [MatchRec.set_user_response], ?_, ?_, ?_⟩
      · have hp := usar_preserves now
          { m with user1_response := some r, user1_responded_at := some now }
        simp [MatchRec.get_user_response, hp.1, hp.2.2.1]
      · intro _
        have hp := usar_preserves now
          { m with user1_response := some r, user1_responded_at := some now }
        simp [hp.2.2.2.2.1]
      · intro hc
        exact absurd rfl hc
    · have hu2 : u = m.user2_id := h.resolve_left hu1
      subst hu2
      refine ⟨MatchRec.update_state_after_response now
          { m with user2_response := some r, user2_responded_at := some now },
        by simp [MatchRec.set_user_response, hu1], ?_, ?_, ?_⟩
      · have hp := usar_preserves now
          { m with user2_response := some r, user2_responded_at := some now }
        simp [MatchRec.get_user_response, hp.1, hp.2.1, hp.2.2.2.1, hu1]
      · intro hc
        exact absurd hc hu1
      · intro _
        have hp := usar_preserves now
          { m with user2_response := some r, user2_responded_at := some now }
        simp [hp.2.2.2.2.2]

/-- Claim C2 (amended) witness: user 2 responding rejected on the fresh
proposed match succeeds and records the response with its timestamp. -/
theorem C2_response_recorded_any_state_witness :
    ((2 : Nat) = exMatch.user1_id ∨ (2 : Nat) = exMatch.user2_id) ∧
    (∃ m', MatchRec.set_user_response 100 2 "rejected" exMatch =
        Except.ok m' ∧
      m'.get_user_response 2 = some "rejected" ∧
      ((2 : Nat) = exMatch.user1_id → m'.user1_responded_at = some 100) ∧
      ((2 : Nat) ≠ exMatch.user1_id → m'.user2_responded_at = some 100)) :=
  ⟨Or.inr (by decide),
    (C2_response_recorded_any_state 100 2 "rejected" exMatch).2
      (Or.inr (by decide))⟩

/-- Claim C3 counterexample: on the fresh proposed match at time 10, well
before expires_at = 90, expire_match is not a no-op: it moves the state to
Expired even though the claimed precondition (past expires_at) fails. -/
theorem C3_counterexample_expire_without_precondition :
    MatchRec.is_expired 10 exMatch = false ∧
    exMatch.state = MatchState.PROPOSED ∧
    (MatchRec.expire_match 10 exMatch).state = MatchState.EXPIRED ∧
    MatchRec.expire_match 10 exMatch ≠ exMatch := by
  decide

/-- Claim C3 (amended): expire_match performs no precondition check at all:
on every match, whatever its state and whether or not expires_at has
passed, it sets the state to Expired, stamps completed_at, and fills
exactly the unset responses with timeout (preserving set ones); gating on
Proposed-and-past-expires_at is left to callers via the is_expired
predicate. -/
theorem C3_expire_unconditional (now : Int) (m : MatchRec) :
    (MatchRec.expire_match now m).state = MatchState.EXPIRED ∧
    (MatchRec.expire_match now m).completed_at = some now ∧
    (MatchRec.expire_match now m).user1_response =
      some (m.user1_response.getD "timeout") ∧
    (MatchRec.expire_match now m).user2_response =
      some (m.user2_response.getD "timeout") := by
  unfold MatchRec.expire_match
  cases h1 : m.user1_response <;> cases h2 : m.user2_response <;>
    simp [h1, h2]

/-- Claim C4: once both users of a fresh proposed match have responded via
set_user_response, the match resolves to Accepted with accepted_at set iff
both responses are accepted, and otherwise to Rejected with completed_at
set and rejection_reason both_rejected, user1_rejected or user2_rejected
according to the final responses; the resulting state and reason are the
same whichever user responded first. -/
theorem C4_resolution_from_final_responses (m : MatchRec)
    (t1 t2 t3 t4 : Int) (r1 r2 : String)
    (hne : m.user1_id ≠ m.user2_id)
    (h1 : m.user1_response = none) (h2 : m.user2_response = none) :
    ∀ cA cB : Except String MatchRec,
      cA = (MatchRec.set_user_response t1 m.user1_id r1 m).bind
        (MatchRec.set_user_response t2 m.user2_id r2) →
      cB = (MatchRec.set_user_response t3 m.user2_id r2 m).bind
        (MatchRec.set_user_response t4 m.user1_id r1) →
      cA.map MatchRec.state = cB.map MatchRec.state ∧
      cA.map MatchRec.rejection_reason = cB.map MatchRec.rejection_reason ∧
      cA.map MatchRec.state = Except.ok
        (if r1 = "accepted" ∧ r2 = "accepted" then MatchState.ACCEPTED
         else MatchState.REJECTED) ∧
      (r1 = "accepted" ∧ r2 = "accepted" →
        cA.map MatchRec.accepted_at = Except.ok (some t2)) ∧
      (¬ (r1 = "accepted" ∧ r2 = "accepted") →
        cA.map MatchRec.completed_at = Except.ok (some t2) ∧
        cA.map MatchRec.rejection_reason = Except.ok (some
          (if r1 = "rejected" ∧ r2 = "rejected" then "both_rejected"
           else if r1 = "rejected" then "user1_rejected"
           else "user2_rejected"))) := by
  intro cA cB hA hB
  have h21 : ¬ m.user2_id = m.user1_id := fun hh => hne hh.symm
  have eA1 : MatchRec.set_user_response t1 m.user1_id r1 m =
      Except.ok { m with user1_response := some r1,
                         user1_responded_at := some t1 } := by
    unfold MatchRec.set_user_response
    rw [if_pos rfl]
    exact congrArg Except.ok (usar_noop_of_missing t1
      { m with user1_response := some r1, user1_responded_at := some t1 }
      (Or.inr h2))
  have eA2 : MatchRec.set_user_response t2 m.user2_id r2
      { m with user1_response := some r1, user1_responded_at := some t1 } =
      Except.ok (MatchRec.update_state_after_response t2
        { m with user1_response := some r1, user1_responded_at := some t1,
                 user2_response := some r2, user2_responded_at := some t2 }) := by
    unfold MatchRec.set_user_response
    rw [if_neg h21, if_pos rfl]
  have eB1 : MatchRec.set_user_response t3 m.user2_id r2 m =
      Except.ok { m with user2_response := some r2,
                         user2_responded_at := some t3 } := by
    unfold MatchRec.set_user_response
    rw [if_neg h21, if_pos rfl]
    exact congrArg Except.ok (usar_noop_of_missing t3
      { m with user2_response := some r2, user2_responded_at := some t3 }
      (Or.inl h1))
  have eB2 : MatchRec.set_user_response t4 m.user1_id r1
      { m with user2_response := some r2, user2_responded_at := some t3 } =
      Except.ok (MatchRec.update_state_after_response t4
        { m with user1_response := some r1, user1_responded_at := some t4,
                 user2_response := some r2, user2_responded_at := some t3 }) := by
    unfold MatchRec.set_user_response
    rw [if_pos rfl]
  subst hA hB
  rw [eA1, eB1]
  simp only [except_bind_ok]
  rw [eA2, eB2]
  simp only [except_map_ok]
  have rA := usar_resolves t2
    { m with user1_response := some r1, user1_responded_at := some t1,
             user2_response := some r2, user2_responded_at := some t2 }
    r1 r2 rfl rfl
  have rB := usar_resolves t4
    { m with user1_response := some r1, user1_responded_at := some t4,
             user2_response := some r2, user2_responded_at := some t3 }
    r1 r2 rfl rfl
  refine ⟨?_, ?_, ?_, ?_, ?_⟩
  · rw [rA.1, rB.1]
  · rw [rA.2.1, rB.2.1]
  · rw [rA.1]
  · intro hacc
    rw [rA.2.2.1 hacc]
  · intro hacc
    exact ⟨by rw [rA.2.2.2 hacc], by rw [rA.2.1, if_neg hacc]⟩

/-- Claim C4 witness: on the fresh proposed match, user1 accepting at t=1
and user2 rejecting at t=2 resolves the rejection reason to
user2_rejected. -/
theorem C4_resolution_from_final_responses_witness :
    exMatch.user1_id ≠ exMatch.user2_id ∧
    exMatch.user1_response = none ∧
    exMatch.user2_response = none ∧
    ((MatchRec.set_user_response 1 exMatch.user1_id "accepted" exMatch).bind
        (MatchRec.set_user_response 2 exMatch.user2_id "rejected")).map
      MatchRec.rejection_reason = Except.ok (some "user2_rejected") :=
  ⟨by decide, rfl, rfl,
    (((C4_resolution_from_final_responses exMatch 1 2 3 4 "accepted"
        "rejected" (by decide) rfl rfl _ _ rfl rfl).2.2.2.2
      (by decide)).2).trans (by simp)⟩
